import Mathlib

/-!
Verification model of the Student out-gate / leave application workflow
(`app.py`). The core under study is the Application Store
(`insert_application`, `get_application`, `update_status`) and the Decision
Processor (`process_action`), together with the invocation of the
notification collaborator (`send_decision_notifications`).

Modelling conventions:
* the SQLite table `leave_applications` is a list of rows (`Application`);
  `get_application` is a first-match lookup on `application_id`, matching
  the behaviour of a `SELECT ... WHERE application_id=?` on a primary key;
* wall-clock datetimes are integers (`Int`); `isoformat` serializes a time
  point to its stored TEXT form and `fromisoformat` parses it back, standing
  in for `datetime.isoformat` / `datetime.fromisoformat`;
* the SHA-256 digest function is an explicit parameter `sha256` of the
  operations that use it (the code's `_sha256`); no claim depends on the
  internals of the hash, only on digest equality;
* outbound e-mail (`send_decision_notifications`) is modelled as a returned
  event record (`NotifyCall`) describing the invocation of the notification
  collaborator, since its transport side effects are external to the core;
* Python exceptions raised by `insert_application` become `Except` errors:
  the PRIMARY KEY violation is `DuplicateIdError`, the failed read-back
  verification (`RuntimeError` in the code) is `PersistenceError`.
-/

namespace OutGate

/-- Serialized datetime, standing in for `datetime.isoformat()`.
The concrete rendering is irrelevant to the claims; what matters is that it
is a serialization of the time point. -/
def isoformat (t : Int) : String := toString t

/-- Accumulator pass of decimal parsing (helper for `fromisoformat`). -/
def digitsVal : List Char → Nat → Nat
  | [], acc => acc
  | c :: cs, acc => digitsVal cs (acc * 10 + (c.toNat - 48))

/-- Parse of a stored datetime TEXT column, standing in for
`datetime.fromisoformat` applied to a value produced by `isoformat`. -/
def fromisoformat (s : String) : Int :=
  match s.data with
  | '-' :: cs => -(digitsVal cs 0 : Int)
  | cs => (digitsVal cs 0 : Int)

/-- One row of the `leave_applications` table, with the columns declared in
the `CREATE TABLE` statement of `db()` plus the migrated column
`admin_review_msgid`. `status` is TEXT (`"PENDING" | "APPROVED" |
"REJECTED"`), datetime columns are stored serialized as in the database. -/
structure Application where
  application_id : String
  status : String
  submitted_at : String
  from_date : String
  to_date : String
  reason : String
  reason_type : Option String
  doc_name : Option String
  doc_sha256 : Option String
  student_email : String
  student_name : String
  program : Option String
  semester : Option String
  «section» : Option String
  father_name : Option String
  father_mobile : Option String
  father_email : Option String
  mother_name : Option String
  mother_email : Option String
  mother_mobile : Option String
  approve_token_hash : String
  reject_token_hash : String
  token_expires_at : String
  decided_at : Option String
  decided_by : Option String
  admin_review_msgid : Option String
deriving DecidableEq, Repr

/-- The submission payload dict handed to `insert_application` (the fields
it reads; presentation-only keys such as `doc_bytes` are not persisted). -/
structure Payload where
  application_id : String
  from_date : String
  to_date : String
  reason : String
  reason_type : Option String
  doc_name : Option String
  doc_sha256 : Option String
  student_email : String
  student_name : String
  program : Option String
  semester : Option String
  «section» : Option String
  father_name : Option String
  father_mobile : Option String
  father_email : Option String
  mother_name : Option String
  mother_email : Option String
  mother_mobile : Option String
deriving DecidableEq, Repr

/-- The `leave_applications` table. -/
abbrev Store := List Application

/-- `get_application`: `SELECT * FROM leave_applications WHERE
application_id=?` followed by `fetchone()`. -/
def get_application (store : Store) (aid : String) : Option Application :=
  store.find? (fun r => r.application_id == aid)

/-- Errors `insert_application` can raise: the PRIMARY KEY violation on a
duplicate id, and the `RuntimeError` raised when the immediate read-back
verification fails. -/
inductive InsertError where
  | DuplicateIdError
  | PersistenceError
deriving DecidableEq, Repr

/-- The row built by `insert_application`'s INSERT statement: status
`PENDING`, `submitted_at` set to the serialized current time, decision
columns NULL. -/
def insertedRow (payload : Payload) (approve_hash reject_hash exp_iso now_iso : String) :
    Application :=
  { application_id := payload.application_id
    status := "PENDING"
    submitted_at := now_iso
    from_date := payload.from_date
    to_date := payload.to_date
    reason := payload.reason
    reason_type := payload.reason_type
    doc_name := payload.doc_name
    doc_sha256 := payload.doc_sha256
    student_email := payload.student_email
    student_name := payload.student_name
    program := payload.program
    semester := payload.semester
    «section» := payload.«section»
    father_name := payload.father_name
    father_mobile := payload.father_mobile
    father_email := payload.father_email
    mother_name := payload.mother_name
    mother_email := payload.mother_email
    mother_mobile := payload.mother_mobile
    approve_token_hash := approve_hash
    reject_token_hash := reject_hash
    token_expires_at := exp_iso
    decided_at := none
    decided_by := none
    admin_review_msgid := none }

/-- `insert_application`: inserts a PENDING row in autocommit mode and
immediately verifies persistence by reading the row back; raises
(`RuntimeError`, here `PersistenceError`) if the read-back does not show
the expected id, PENDING status and a non-empty `submitted_at`. `now_iso`
is the serialized `datetime.now(IST)` taken at the start of the call. -/
def insert_application (store : Store) (now_iso : String) (payload : Payload)
    (approve_hash reject_hash exp_iso : String) : Except InsertError Store :=
  if (get_application store payload.application_id).isSome then
    .error .DuplicateIdError
  else
    match get_application
        (store ++ [insertedRow payload approve_hash reject_hash exp_iso now_iso])
        payload.application_id with
    | none => .error .PersistenceError
    | some chk =>
      if chk.application_id = payload.application_id ∧ chk.status = "PENDING" ∧
          chk.submitted_at ≠ "" then
        .ok (store ++ [insertedRow payload approve_hash reject_hash exp_iso now_iso])
      else
        .error .PersistenceError

/-- The single-row UPDATE shared by `update_status` and the inline UPDATE in
`process_action`: set `status`, `decided_at`, `decided_by` on the row. -/
def decideRow (now : Int) (admin_email new_status : String) (r : Application) : Application :=
  { r with status := new_status
           decided_at := some (isoformat now)
           decided_by := some admin_email }

/-- `update_status`: `UPDATE leave_applications SET status=?, decided_at=?,
decided_by=? WHERE application_id=?`, with `decided_at` the current time and
`decided_by` the configured `ADMIN_EMAIL`. -/
def update_status (store : Store) (now : Int) (admin_email : String)
    (aid new_status : String) : Store :=
  store.map (fun r => if r.application_id == aid then decideRow now admin_email new_status r else r)

/-- One invocation of the notification collaborator
(`send_decision_notifications(a_row, status, rejection_note)`). -/
structure NotifyCall where
  a_row : Application
  status : String
  rejection_note : Option String
deriving DecidableEq, Repr

/-- Result of `process_action`: the returned outcome message, the table
after the call, and the notification-collaborator invocation made after the
storage mutation (if any). -/
structure ProcessResult where
  message : String
  store : Store
  notification : Option NotifyCall
deriving DecidableEq, Repr

/-- `process_action(aid, token, action, rejection_note)`: look the row up;
if absent return "Application not found."; if already decided return the
already-processed message; if the expiry deadline has passed, or the
presented token's digest differs from the stored hash for the action,
return the generic expired/processed message; otherwise update the row to
APPROVED/REJECTED with `decided_at`/`decided_by` stamped, re-read it, and
invoke the notification collaborator with the final row (the rejection note
is forwarded only for `action == "reject"`). -/
def process_action (admin_email : String) (sha256 : String → String) (store : Store)
    (now : Int) (aid token action : String) (rejection_note : Option String) :
    ProcessResult :=
  match get_application store aid with
  | none => { message := "Application not found.", store := store, notification := none }
  | some row =>
    if row.status = "APPROVED" ∨ row.status = "REJECTED" then
      { message := "This leave application has already been processed."
        store := store, notification := none }
    else if now > fromisoformat row.token_expires_at then
      { message := "This action has already been processed or the token has expired."
        store := store, notification := none }
    else
      let expected := if action = "approve" then row.approve_token_hash else row.reject_token_hash
      if sha256 token ≠ expected then
        { message := "This action has already been processed or the token has expired."
          store := store, notification := none }
      else
        let new_status := if action = "approve" then "APPROVED" else "REJECTED"
        let store2 := update_status store now admin_email aid new_status
        { message := "Leave application " ++ new_status.toLower ++ "."
          store := store2
          notification :=
            (get_application store2 aid).map fun a_row =>
              { a_row := a_row, status := new_status
                rejection_note := if action = "reject" then rejection_note else none } }


/-! ### Basic lemmas about the store operations -/

/-- The decision UPDATE leaves the row's primary key unchanged. -/
theorem decideRow_application_id (now : Int) (admin ns : String) (r : Application) :
    (decideRow now admin ns r).application_id = r.application_id := rfl

/-- A row returned by `get_application` carries the queried id. -/
theorem get_application_some_id {store : Store} {aid : String} {app : Application}
    (h : get_application store aid = some app) : app.application_id = aid := by
  have hp := List.find?_some h
  simpa using hp

/-- `find?` commutes with mapping by a function that preserves the predicate. -/
theorem find?_map_pres {α : Type} (p : α → Bool) (g : α → α)
    (hp : ∀ x, p (g x) = p x) (l : List α) :
    (l.map g).find? p = (l.find? p).map g := by
  induction l with
  | nil => rfl
  | cons a l ih =>
    by_cases h : p a
    · simp [List.find?_cons, hp, h]
    · simp [List.find?_cons, hp, h, ih]

/-- Looking up the updated id after `update_status` returns the decided row. -/
theorem get_application_update_status_self (store : Store) (now : Int)
    (admin aid ns : String) :
    get_application (update_status store now admin aid ns) aid =
      (get_application store aid).map (decideRow now admin ns) := by
  unfold get_application update_status
  rw [find?_map_pres]
  · cases hf : store.find? (fun r => r.application_id == aid) with
    | none => rfl
    | some app =>
      have hp := List.find?_some hf
      simp only [Option.map_some']
      rw [if_pos hp]
  · intro r
    by_cases h : (r.application_id == aid)
    · rw [if_pos h]
      exact h ▸ rfl
    · rw [if_neg h]

/-- Looking up any other id after `update_status` is unchanged. -/
theorem get_application_update_status_other (store : Store) (now : Int)
    (admin aid ns aid2 : String) (hne : aid2 ≠ aid) :
    get_application (update_status store now admin aid ns) aid2 =
      get_application store aid2 := by
  unfold get_application update_status
  rw [find?_map_pres]
  · cases hf : store.find? (fun r => r.application_id == aid2) with
    | none => rfl
    | some app =>
      have hp := List.find?_some hf
      have hid : app.application_id = aid2 := by simpa using hp
      have : ¬ (app.application_id == aid) = true := by
        simp [hid, hne]
      simp only [Option.map_some']
      rw [if_neg this]
  · intro r
    by_cases h : (r.application_id == aid)
    · rw [if_pos h]
      exact rfl
    · rw [if_neg h]

/-! ### Branch characterizations of `process_action` -/

/-- Unknown id: `process_action` returns "Application not found." and
touches nothing. -/
theorem process_action_not_found (admin : String) (sha256 : String → String)
    (store : Store) (now : Int) (aid token action : String) (note : Option String)
    (h : get_application store aid = none) :
    process_action admin sha256 store now aid token action note =
      { message := "Application not found.", store := store, notification := none } := by
  unfold process_action
  rw [h]

/-- Already-decided row: `process_action` returns the already-processed
message and touches nothing. -/
theorem process_action_terminal (admin : String) (sha256 : String → String)
    (store : Store) (now : Int) (aid token action : String) (note : Option String)
    (app : Application) (h : get_application store aid = some app)
    (hterm : app.status = "APPROVED" ∨ app.status = "REJECTED") :
    process_action admin sha256 store now aid token action note =
      { message := "This leave application has already been processed."
        store := store, notification := none } := by
  unfold process_action
  rw [h]
  simp only [if_pos hterm]

/-- Expired token deadline on a PENDING row: `process_action` returns the
generic expired/processed message and touches nothing. -/
theorem process_action_expired (admin : String) (sha256 : String → String)
    (store : Store) (now : Int) (aid token action : String) (note : Option String)
    (app : Application) (h : get_application store aid = some app)
    (hpend : app.status = "PENDING")
    (hexp : now > fromisoformat app.token_expires_at) :
    process_action admin sha256 store now aid token action note =
      { message := "This action has already been processed or the token has expired."
        store := store, notification := none } := by
  unfold process_action
  rw [h]
  have hterm : ¬ (app.status = "APPROVED" ∨ app.status = "REJECTED") := by
    simp [hpend]
  simp only [if_neg hterm, if_pos hexp]

/-- Digest mismatch on a PENDING, unexpired row: `process_action` returns
the generic expired/processed message and touches nothing. -/
theorem process_action_bad_token (admin : String) (sha256 : String → String)
    (store : Store) (now : Int) (aid token action : String) (note : Option String)
    (app : Application) (h : get_application store aid = some app)
    (hpend : app.status = "PENDING")
    (hexp : ¬ now > fromisoformat app.token_expires_at)
    (hbad : sha256 token ≠
      (if action = "approve" then app.approve_token_hash else app.reject_token_hash)) :
    process_action admin sha256 store now aid token action note =
      { message := "This action has already been processed or the token has expired."
        store := store, notification := none } := by
  unfold process_action
  rw [h]
  have hterm : ¬ (app.status = "APPROVED" ∨ app.status = "REJECTED") := by
    simp [hpend]
  simp only [if_neg hterm, if_neg hexp, if_pos hbad]

/-- Matching digest on a PENDING, unexpired row: `process_action` performs
the decision UPDATE, re-reads the row, and invokes the notification
collaborator with the final row; the rejection note is forwarded only for
the reject action. -/
theorem process_action_success (admin : String) (sha256 : String → String)
    (store : Store) (now : Int) (aid token action : String) (note : Option String)
    (app : Application) (h : get_application store aid = some app)
    (hpend : app.status = "PENDING")
    (hexp : ¬ now > fromisoformat app.token_expires_at)
    (htok : sha256 token =
      (if action = "approve" then app.approve_token_hash else app.reject_token_hash)) :
    process_action admin sha256 store now aid token action note =
      { message := "Leave application " ++
          (if action = "approve" then "APPROVED" else "REJECTED").toLower ++ "."
        store := update_status store now admin aid
          (if action = "approve" then "APPROVED" else "REJECTED")
        notification := some
          { a_row := decideRow now admin
              (if action = "approve" then "APPROVED" else "REJECTED") app
            status := if action = "approve" then "APPROVED" else "REJECTED"
            rejection_note := if action = "reject" then note else none } } := by
  unfold process_action
  rw [h]
  have hterm : ¬ (app.status = "APPROVED" ∨ app.status = "REJECTED") := by
    simp [hpend]
  have hgood : ¬ sha256 token ≠
      (if action = "approve" then app.approve_token_hash else app.reject_token_hash) :=
    not_not_intro htok
  simp only [if_neg hterm, if_neg hexp, if_neg hgood,
    get_application_update_status_self, h, Option.map_some']

/-! ### Concrete sample data -/

/-- A concrete PENDING application: approve hash `"HA"`, reject hash
`"HR"`, expiry time 100. -/
def samplePending : Application :=
  { application_id := "A1"
    status := "PENDING"
    submitted_at := "0"
    from_date := "January 01, 2026"
    to_date := "January 02, 2026"
    reason := "medical"
    reason_type := some "MEDICAL"
    doc_name := none
    doc_sha256 := none
    student_email := "stu@woxsen.edu.in"
    student_name := "Stu Dent"
    program := some "BTech"
    semester := some "3"
    «section» := some "A"
    father_name := some "F"
    father_mobile := some "9999000011"
    father_email := some "f@woxsen.edu.in"
    mother_name := some "M"
    mother_email := some "m@woxsen.edu.in"
    mother_mobile := some "9999000012"
    approve_token_hash := "HA"
    reject_token_hash := "HR"
    token_expires_at := "100"
    decided_at := none
    decided_by := none
    admin_review_msgid := none }

/-- A concrete already-APPROVED application. -/
def sampleApproved : Application :=
  { samplePending with
      application_id := "A2"
      status := "APPROVED"
      decided_at := some "5"
      decided_by := some "admin@woxsen.edu.in" }

/-- The submission payload matching `samplePending`. -/
def samplePayload : Payload :=
  { application_id := "A1"
    from_date := "January 01, 2026"
    to_date := "January 02, 2026"
    reason := "medical"
    reason_type := some "MEDICAL"
    doc_name := none
    doc_sha256 := none
    student_email := "stu@woxsen.edu.in"
    student_name := "Stu Dent"
    program := some "BTech"
    semester := some "3"
    «section» := some "A"
    father_name := some "F"
    father_mobile := some "9999000011"
    father_email := some "f@woxsen.edu.in"
    mother_name := some "M"
    mother_email := some "m@woxsen.edu.in"
    mother_mobile := some "9999000012" }

/-! ### Store shape of every `process_action` outcome -/

/-- Every `process_action` call either leaves the table unchanged or, on a
non-terminal row, replaces it by the decision UPDATE for the requested
action. -/
theorem process_action_store_cases (admin : String) (sha256 : String → String)
    (store : Store) (now : Int) (aid token action : String) (note : Option String) :
    (process_action admin sha256 store now aid token action note).store = store
    ∨ ∃ app, get_application store aid = some app
        ∧ ¬ (app.status = "APPROVED" ∨ app.status = "REJECTED")
        ∧ (process_action admin sha256 store now aid token action note).store
            = update_status store now admin aid
                (if action = "approve" then "APPROVED" else "REJECTED") := by
  unfold process_action
  cases hget : get_application store aid with
  | none => left; rfl
  | some app =>
    by_cases h1 : app.status = "APPROVED" ∨ app.status = "REJECTED"
    · left; simp only [if_pos h1]
    · by_cases h2 : now > fromisoformat app.token_expires_at
      · left; simp only [if_neg h1, if_pos h2]
      · by_cases h3 : sha256 token ≠
            (if action = "approve" then app.approve_token_hash else app.reject_token_hash)
        · left; simp only [if_neg h1, if_neg h2, if_pos h3]
        · right
          exact ⟨app, rfl, h1, by simp only [if_neg h1, if_neg h2, if_neg h3]⟩

/-! ### C1 -/

/-- C1: on a PENDING row whose expiry has not passed, `process_action` with
action `approve` and a token hashing to the stored `approve_token_hash`
sets the status to APPROVED exactly once; afterwards every further
`process_action` call on that id, with any token and any action, returns
the already-processed outcome and leaves the table unmutated. -/
theorem C1_approve_exactly_once (admin : String) (sha256 : String → String)
    (store : Store) (now : Int) (aid token : String) (app : Application)
    (hget : get_application store aid = some app)
    (hpend : app.status = "PENDING")
    (hexp : ¬ now > fromisoformat app.token_expires_at)
    (htok : sha256 token = app.approve_token_hash) :
    get_application (process_action admin sha256 store now aid token "approve" none).store aid
      = some (decideRow now admin "APPROVED" app)
    ∧ ∀ (now2 : Int) (token2 action2 : String) (note2 : Option String),
        (process_action admin sha256
            (process_action admin sha256 store now aid token "approve" none).store
            now2 aid token2 action2 note2).message
          = "This leave application has already been processed."
        ∧ (process_action admin sha256
            (process_action admin sha256 store now aid token "approve" none).store
            now2 aid token2 action2 note2).store
          = (process_action admin sha256 store now aid token "approve" none).store := by
  have htok' : sha256 token =
      (if "approve" = "approve" then app.approve_token_hash else app.reject_token_hash) := by
    simpa using htok
  have hs := process_action_success admin sha256 store now aid token "approve" none app
    hget hpend hexp htok'
  have hrow : get_application
      (process_action admin sha256 store now aid token "approve" none).store aid
      = some (decideRow now admin "APPROVED" app) := by
    rw [hs]
    simp [get_application_update_status_self, hget]
  refine ⟨hrow, ?_⟩
  intro now2 token2 action2 note2
  have hterm2 : (decideRow now admin "APPROVED" app).status = "APPROVED"
      ∨ (decideRow now admin "APPROVED" app).status = "REJECTED" := Or.inl rfl
  have ht := process_action_terminal admin sha256
    (process_action admin sha256 store now aid token "approve" none).store
    now2 aid token2 action2 note2 (decideRow now admin "APPROVED" app) hrow hterm2
  rw [ht]
  exact ⟨rfl, rfl⟩

/-- Witness for C1 at concrete inputs: the identity digest, a single
PENDING row, call time 50 before expiry 100, token `"HA"`. -/
theorem C1_approve_exactly_once_witness :
    get_application
      (process_action "admin@woxsen.edu.in" (fun s => s) [samplePending] 50 "A1" "HA"
        "approve" none).store "A1"
      = some (decideRow 50 "admin@woxsen.edu.in" "APPROVED" samplePending)
    ∧ ∀ (now2 : Int) (token2 action2 : String) (note2 : Option String),
        (process_action "admin@woxsen.edu.in" (fun s => s)
            (process_action "admin@woxsen.edu.in" (fun s => s) [samplePending] 50 "A1" "HA"
              "approve" none).store
            now2 "A1" token2 action2 note2).message
          = "This leave application has already been processed."
        ∧ (process_action "admin@woxsen.edu.in" (fun s => s)
            (process_action "admin@woxsen.edu.in" (fun s => s) [samplePending] 50 "A1" "HA"
              "approve" none).store
            now2 "A1" token2 action2 note2).store
          = (process_action "admin@woxsen.edu.in" (fun s => s) [samplePending] 50 "A1" "HA"
              "approve" none).store :=
  C1_approve_exactly_once "admin@woxsen.edu.in" (fun s => s) [samplePending] 50 "A1" "HA"
    samplePending (by decide) (by decide) (by decide) (by decide)

/-! ### C2 -/

/-- C2: APPROVED and REJECTED are terminal: whatever id, token, action and
note a `process_action` call carries, the row of an already-decided
application is exactly the same afterwards (so its status, `decided_at` and
`decided_by` never change and it never returns to PENDING). -/
theorem C2_terminal_states_frozen (admin : String) (sha256 : String → String)
    (store : Store) (now : Int) (aid2 token action : String) (note : Option String)
    (aid : String) (app : Application)
    (hget : get_application store aid = some app)
    (hterm : app.status = "APPROVED" ∨ app.status = "REJECTED") :
    get_application (process_action admin sha256 store now aid2 token action note).store aid
      = some app := by
  rcases process_action_store_cases admin sha256 store now aid2 token action note with
    hsame | ⟨app2, hget2, hnterm, hupd⟩
  · rw [hsame, hget]
  · by_cases haid : aid = aid2
    · subst haid
      rw [hget] at hget2
      cases hget2
      exact absurd hterm hnterm
    · rw [hupd, get_application_update_status_other store now admin aid2 _ aid haid, hget]

/-- Witness for C2: a table holding an APPROVED row `"A2"` alongside a
PENDING row; a reject call on the pending row leaves `"A2"` untouched. -/
theorem C2_terminal_states_frozen_witness :
    get_application
      (process_action "admin@woxsen.edu.in" (fun s => s)
        [sampleApproved, samplePending] 50 "A1" "HR" "reject" (some "note")).store "A2"
      = some sampleApproved :=
  C2_terminal_states_frozen "admin@woxsen.edu.in" (fun s => s)
    [sampleApproved, samplePending] 50 "A1" "HR" "reject" (some "note") "A2" sampleApproved
    (by decide) (Or.inl (by decide))

/-! ### C3 -/

/-- C3 (counterexample to the claim as stated): a call on a non-existent id
and a call on an already-decided application return different message
strings, so the three failure causes do not collapse to one string. -/
theorem C3_counterexample_distinct_messages :
    (process_action "admin@woxsen.edu.in" (fun s => s) [sampleApproved] 0 "ZZZ" "tok"
        "approve" none).message
      ≠ (process_action "admin@woxsen.edu.in" (fun s => s) [sampleApproved] 0 "A2" "tok"
        "approve" none).message := by
  decide

/-- C3 (amended): `process_action` returns one shared ambiguous string for
the expired-deadline and wrong-token failures, but a non-existent id gets
the distinct string "Application not found." and an already-decided row
gets the distinct string "This leave application has already been
processed.", so a caller can tell the three causes apart. -/
theorem C3_message_taxonomy :
    (∀ (admin : String) (sha256 : String → String) (store : Store) (now : Int)
        (aid token action : String) (note : Option String),
        get_application store aid = none →
        (process_action admin sha256 store now aid token action note).message
          = "Application not found.")
    ∧ (∀ (admin : String) (sha256 : String → String) (store : Store) (now : Int)
        (aid token action : String) (note : Option String) (app : Application),
        get_application store aid = some app →
        app.status = "APPROVED" ∨ app.status = "REJECTED" →
        (process_action admin sha256 store now aid token action note).message
          = "This leave application has already been processed.")
    ∧ (∀ (admin : String) (sha256 : String → String) (store : Store) (now : Int)
        (aid token action : String) (note : Option String) (app : Application),
        get_application store aid = some app →
        app.status = "PENDING" →
        now > fromisoformat app.token_expires_at →
        (process_action admin sha256 store now aid token action note).message
          = "This action has already been processed or the token has expired.")
    ∧ (∀ (admin : String) (sha256 : String → String) (store : Store) (now : Int)
        (aid token action : String) (note : Option String) (app : Application),
        get_application store aid = some app →
        app.status = "PENDING" →
        ¬ now > fromisoformat app.token_expires_at →
        sha256 token ≠
          (if action = "approve" then app.approve_token_hash else app.reject_token_hash) →
        (process_action admin sha256 store now aid token action note).message
          = "This action has already been processed or the token has expired.")
    ∧ ("Application not found."
          ≠ "This leave application has already been processed."
        ∧ "Application not found."
          ≠ "This action has already been processed or the token has expired."
        ∧ "This leave application has already been processed."
          ≠ "This action has already been processed or the token has expired.") := by
  refine ⟨?_, ?_, ?_, ?_, by decide, by decide, by decide⟩
  · intro admin sha256 store now aid token action note h
    rw [process_action_not_found admin sha256 store now aid token action note h]
  · intro admin sha256 store now aid token action note app h hterm
    rw [process_action_terminal admin sha256 store now aid token action note app h hterm]
  · intro admin sha256 store now aid token action note app h hpend hexp
    rw [process_action_expired admin sha256 store now aid token action note app h hpend hexp]
  · intro admin sha256 store now aid token action note app h hpend hexp hbad
    rw [process_action_bad_token admin sha256 store now aid token action note app h hpend
      hexp hbad]

/-- Witness for C3 (amended): all four outcome branches observed on
concrete tables. -/
theorem C3_message_taxonomy_witness :
    (process_action "admin@woxsen.edu.in" (fun s => s) [] 0 "A0" "tok" "approve"
        none).message = "Application not found."
    ∧ (process_action "admin@woxsen.edu.in" (fun s => s) [sampleApproved] 0 "A2" "tok"
        "approve" none).message = "This leave application has already been processed."
    ∧ (process_action "admin@woxsen.edu.in" (fun s => s) [samplePending] 200 "A1" "HA"
        "approve" none).message
        = "This action has already been processed or the token has expired."
    ∧ (process_action "admin@woxsen.edu.in" (fun s => s) [samplePending] 50 "A1" "WRONG"
        "approve" none).message
        = "This action has already been processed or the token has expired." :=
  ⟨C3_message_taxonomy.1 "admin@woxsen.edu.in" (fun s => s) [] 0 "A0" "tok" "approve" none
      (by decide),
   C3_message_taxonomy.2.1 "admin@woxsen.edu.in" (fun s => s) [sampleApproved] 0 "A2" "tok"
      "approve" none sampleApproved (by decide) (Or.inl (by decide)),
   C3_message_taxonomy.2.2.1 "admin@woxsen.edu.in" (fun s => s) [samplePending] 200 "A1"
      "HA" "approve" none samplePending (by decide) (by decide) (by decide),
   C3_message_taxonomy.2.2.2.1 "admin@woxsen.edu.in" (fun s => s) [samplePending] 50 "A1"
      "WRONG" "approve" none samplePending (by decide) (by decide) (by decide) (by decide)⟩

/-! ### C4 -/

/-- C4 (counterexample to the claim as stated): the wrong-token message on
a PENDING, unexpired row differs from the already-decided message, so the
two are distinguishable. -/
theorem C4_counterexample_message_differs :
    (process_action "admin@woxsen.edu.in" (fun s => s) [samplePending] 50 "A1" "WRONG"
        "approve" none).message
      ≠ (process_action "admin@woxsen.edu.in" (fun s => s) [sampleApproved] 50 "A2" "tok"
        "reject" none).message := by
  decide

/-- C4 (amended): on a PENDING, unexpired row, a token whose digest differs
from the stored hash for the requested action leaves the table unchanged,
triggers no notification, and returns the same generic string as an expired
token — but that string differs from the already-decided message. -/
theorem C4_bad_token_no_mutation (admin : String) (sha256 : String → String)
    (store : Store) (now : Int) (aid token action : String) (note : Option String)
    (app : Application)
    (hget : get_application store aid = some app)
    (hpend : app.status = "PENDING")
    (hexp : ¬ now > fromisoformat app.token_expires_at)
    (hbad : sha256 token ≠
      (if action = "approve" then app.approve_token_hash else app.reject_token_hash)) :
    (process_action admin sha256 store now aid token action note).store = store
    ∧ (process_action admin sha256 store now aid token action note).notification = none
    ∧ (process_action admin sha256 store now aid token action note).message
        = "This action has already been processed or the token has expired."
    ∧ (process_action admin sha256 store now aid token action note).message
        ≠ "This leave application has already been processed." := by
  rw [process_action_bad_token admin sha256 store now aid token action note app hget hpend
    hexp hbad]
  exact ⟨rfl, rfl, rfl,
    (by decide :
      ("This action has already been processed or the token has expired." : String)
        ≠ "This leave application has already been processed.")⟩

/-- Witness for C4 (amended) at concrete inputs: identity digest, token
`"WRONG"` against stored approve hash `"HA"`. -/
theorem C4_bad_token_no_mutation_witness :
    (process_action "admin@woxsen.edu.in" (fun s => s) [samplePending] 50 "A1" "WRONG"
        "approve" none).store = [samplePending]
    ∧ (process_action "admin@woxsen.edu.in" (fun s => s) [samplePending] 50 "A1" "WRONG"
        "approve" none).notification = none
    ∧ (process_action "admin@woxsen.edu.in" (fun s => s) [samplePending] 50 "A1" "WRONG"
        "approve" none).message
        = "This action has already been processed or the token has expired."
    ∧ (process_action "admin@woxsen.edu.in" (fun s => s) [samplePending] 50 "A1" "WRONG"
        "approve" none).message
        ≠ "This leave application has already been processed." :=
  C4_bad_token_no_mutation "admin@woxsen.edu.in" (fun s => s) [samplePending] 50 "A1"
    "WRONG" "approve" none samplePending (by decide) (by decide) (by decide) (by decide)

/-! ### C5 -/

/-- C5 (counterexample to the claim as stated): the expired-deadline
message (correct token presented) differs from the already-processed
message, so Expired is not surfaced with the AlreadyProcessed string. -/
theorem C5_counterexample_message_differs :
    (process_action "admin@woxsen.edu.in" (fun s => s) [samplePending] 200 "A1" "HA"
        "approve" none).message
      ≠ (process_action "admin@woxsen.edu.in" (fun s => s) [sampleApproved] 200 "A2" "tok"
        "approve" none).message := by
  decide

/-- C5 (amended): on a PENDING row, any call strictly after the expiry
deadline — whatever the token, including the correct one — changes nothing,
triggers no notification, and returns the generic expired/processed string,
which differs from the already-processed message. -/
theorem C5_expired_no_transition (admin : String) (sha256 : String → String)
    (store : Store) (now : Int) (aid token action : String) (note : Option String)
    (app : Application)
    (hget : get_application store aid = some app)
    (hpend : app.status = "PENDING")
    (hexp : now > fromisoformat app.token_expires_at) :
    (process_action admin sha256 store now aid token action note).store = store
    ∧ (process_action admin sha256 store now aid token action note).notification = none
    ∧ (process_action admin sha256 store now aid token action note).message
        = "This action has already been processed or the token has expired."
    ∧ (process_action admin sha256 store now aid token action note).message
        ≠ "This leave application has already been processed." := by
  rw [process_action_expired admin sha256 store now aid token action note app hget hpend
    hexp]
  exact ⟨rfl, rfl, rfl,
    (by decide :
      ("This action has already been processed or the token has expired." : String)
        ≠ "This leave application has already been processed.")⟩

/-- Witness for C5 (amended) at concrete inputs: call time 200 past expiry
100, correct approve token. -/
theorem C5_expired_no_transition_witness :
    (process_action "admin@woxsen.edu.in" (fun s => s) [samplePending] 200 "A1" "HA"
        "approve" none).store = [samplePending]
    ∧ (process_action "admin@woxsen.edu.in" (fun s => s) [samplePending] 200 "A1" "HA"
        "approve" none).notification = none
    ∧ (process_action "admin@woxsen.edu.in" (fun s => s) [samplePending] 200 "A1" "HA"
        "approve" none).message
        = "This action has already been processed or the token has expired."
    ∧ (process_action "admin@woxsen.edu.in" (fun s => s) [samplePending] 200 "A1" "HA"
        "approve" none).message
        ≠ "This leave application has already been processed." :=
  C5_expired_no_transition "admin@woxsen.edu.in" (fun s => s) [samplePending] 200 "A1"
    "HA" "approve" none samplePending (by decide) (by decide) (by decide)

/-! ### C6 -/

/-- Lookup skips a prefix in which the id does not occur. -/
theorem get_application_append_of_not_found (store l2 : Store) (aid : String)
    (h : get_application store aid = none) :
    get_application (store ++ l2) aid = get_application l2 aid := by
  unfold get_application at *
  rw [List.find?_append, h]
  rfl

/-- The freshly inserted row is found under the payload's id. -/
theorem get_application_insertedRow (store : Store) (payload : Payload)
    (ah rh exp_iso now_iso : String)
    (h : get_application store payload.application_id = none) :
    get_application (store ++ [insertedRow payload ah rh exp_iso now_iso])
        payload.application_id
      = some (insertedRow payload ah rh exp_iso now_iso) := by
  rw [get_application_append_of_not_found store _ _ h]
  unfold get_application
  rw [List.find?_cons_of_pos]
  exact beq_self_eq_true payload.application_id

/-- C6: on a fresh id, `insert_application` succeeds, and the immediate
`get_application` read-back shows the row PENDING with a non-empty
`submitted_at`; moreover no `insert_application` call whatsoever returns
success unless its read-back verification found the expected id, PENDING
status and a non-empty `submitted_at` (otherwise it fails with
`PersistenceError`). -/
theorem C6_insert_readback_verified (store : Store) (now_iso : String) (payload : Payload)
    (ah rh exp_iso : String)
    (hfresh : get_application store payload.application_id = none)
    (hnow : now_iso ≠ "") :
    (∃ store2, insert_application store now_iso payload ah rh exp_iso = .ok store2
      ∧ ∃ row, get_application store2 payload.application_id = some row
          ∧ row.status = "PENDING" ∧ row.submitted_at ≠ "")
    ∧ ∀ (store0 : Store) (now0 : String) (p0 : Payload) (a0 r0 e0 : String) (s0 : Store),
        insert_application store0 now0 p0 a0 r0 e0 = .ok s0 →
        ∃ chk, get_application s0 p0.application_id = some chk
          ∧ chk.application_id = p0.application_id
          ∧ chk.status = "PENDING" ∧ chk.submitted_at ≠ "" := by
  constructor
  · have hrow := get_application_insertedRow store payload ah rh exp_iso now_iso hfresh
    refine ⟨store ++ [insertedRow payload ah rh exp_iso now_iso], ?_, ?_⟩
    · unfold insert_application
      rw [hfresh]
      simp only [Option.isSome_none, Bool.false_eq_true, if_false, hrow]
      rw [if_pos]
      exact ⟨rfl, rfl, hnow⟩
    · exact ⟨insertedRow payload ah rh exp_iso now_iso, hrow, rfl, hnow⟩
  · intro store0 now0 p0 a0 r0 e0 s0 h
    unfold insert_application at h
    by_cases hdup : (get_application store0 p0.application_id).isSome
    · rw [if_pos hdup] at h
      cases h
    · rw [if_neg hdup] at h
      cases hchk : get_application (store0 ++ [insertedRow p0 a0 r0 e0 now0])
          p0.application_id with
      | none =>
        rw [hchk] at h
        cases h
      | some chk =>
        rw [hchk] at h
        by_cases hcond : chk.application_id = p0.application_id ∧ chk.status = "PENDING"
            ∧ chk.submitted_at ≠ ""
        · simp only [if_pos hcond] at h
          cases h
          exact ⟨chk, hchk, hcond⟩
        · simp only [if_neg hcond] at h
          cases h

/-- Witness for C6: inserting the sample payload into the empty table at
clock string `"0"`. -/
theorem C6_insert_readback_verified_witness :
    (∃ store2, insert_application [] "0" samplePayload "HA" "HR" "100" = .ok store2
      ∧ ∃ row, get_application store2 samplePayload.application_id = some row
          ∧ row.status = "PENDING" ∧ row.submitted_at ≠ "")
    ∧ ∀ (store0 : Store) (now0 : String) (p0 : Payload) (a0 r0 e0 : String) (s0 : Store),
        insert_application store0 now0 p0 a0 r0 e0 = .ok s0 →
        ∃ chk, get_application s0 p0.application_id = some chk
          ∧ chk.application_id = p0.application_id
          ∧ chk.status = "PENDING" ∧ chk.submitted_at ≠ "" :=
  C6_insert_readback_verified [] "0" samplePayload "HA" "HR" "100" (by decide) (by decide)

/-! ### C7 -/

/-- C7: on a PENDING, unexpired row, `process_action` with action `reject`,
a token hashing to the stored `reject_token_hash` and a free-text note sets
status REJECTED, stamps `decided_at`/`decided_by`, and invokes the
notification collaborator (after the storage mutation) with the re-read
final row, status REJECTED and that note; a later approve attempt returns
the already-processed outcome and the row stays REJECTED. -/
theorem C7_reject_then_notify (admin : String) (sha256 : String → String)
    (store : Store) (now : Int) (aid token note : String) (app : Application)
    (hget : get_application store aid = some app)
    (hpend : app.status = "PENDING")
    (hexp : ¬ now > fromisoformat app.token_expires_at)
    (htok : sha256 token = app.reject_token_hash) :
    get_application
        (process_action admin sha256 store now aid token "reject" (some note)).store aid
      = some (decideRow now admin "REJECTED" app)
    ∧ (decideRow now admin "REJECTED" app).status = "REJECTED"
    ∧ (decideRow now admin "REJECTED" app).decided_at = some (isoformat now)
    ∧ (decideRow now admin "REJECTED" app).decided_by = some admin
    ∧ (process_action admin sha256 store now aid token "reject" (some note)).notification
      = some { a_row := decideRow now admin "REJECTED" app
               status := "REJECTED"
               rejection_note := some note }
    ∧ ∀ (now2 : Int) (token2 : String) (note2 : Option String),
        (process_action admin sha256
            (process_action admin sha256 store now aid token "reject" (some note)).store
            now2 aid token2 "approve" note2).message
          = "This leave application has already been processed."
        ∧ get_application
            (process_action admin sha256
              (process_action admin sha256 store now aid token "reject" (some note)).store
              now2 aid token2 "approve" note2).store aid
          = some (decideRow now admin "REJECTED" app) := by
  have htok' : sha256 token =
      (if "reject" = "approve" then app.approve_token_hash else app.reject_token_hash) := by
    simpa using htok
  have hs := process_action_success admin sha256 store now aid token "reject" (some note) app
    hget hpend hexp htok'
  have hrow : get_application
      (process_action admin sha256 store now aid token "reject" (some note)).store aid
      = some (decideRow now admin "REJECTED" app) := by
    rw [hs]
    simp [get_application_update_status_self, hget]
  refine ⟨hrow, rfl, rfl, rfl, ?_, ?_⟩
  · rw [hs]
    simp
  · intro now2 token2 note2
    have hterm2 : (decideRow now admin "REJECTED" app).status = "APPROVED"
        ∨ (decideRow now admin "REJECTED" app).status = "REJECTED" := Or.inr rfl
    have ht := process_action_terminal admin sha256
      (process_action admin sha256 store now aid token "reject" (some note)).store
      now2 aid token2 "approve" note2 (decideRow now admin "REJECTED" app) hrow hterm2
    rw [ht]
    exact ⟨rfl, hrow⟩

/-- Witness for C7 at concrete inputs: reject token `"HR"`, note
"doctor's note pending", call time 1 before expiry 100. -/
theorem C7_reject_then_notify_witness :
    get_application
        (process_action "admin@woxsen.edu.in" (fun s => s) [samplePending] 1 "A1" "HR"
          "reject" (some "doctor's note pending")).store "A1"
      = some (decideRow 1 "admin@woxsen.edu.in" "REJECTED" samplePending)
    ∧ (decideRow 1 "admin@woxsen.edu.in" "REJECTED" samplePending).status = "REJECTED"
    ∧ (decideRow 1 "admin@woxsen.edu.in" "REJECTED" samplePending).decided_at
      = some (isoformat 1)
    ∧ (decideRow 1 "admin@woxsen.edu.in" "REJECTED" samplePending).decided_by
      = some "admin@woxsen.edu.in"
    ∧ (process_action "admin@woxsen.edu.in" (fun s => s) [samplePending] 1 "A1" "HR"
        "reject" (some "doctor's note pending")).notification
      = some { a_row := decideRow 1 "admin@woxsen.edu.in" "REJECTED" samplePending
               status := "REJECTED"
               rejection_note := some "doctor's note pending" }
    ∧ ∀ (now2 : Int) (token2 : String) (note2 : Option String),
        (process_action "admin@woxsen.edu.in" (fun s => s)
            (process_action "admin@woxsen.edu.in" (fun s => s) [samplePending] 1 "A1" "HR"
              "reject" (some "doctor's note pending")).store
            now2 "A1" token2 "approve" note2).message
          = "This leave application has already been processed."
        ∧ get_application
            (process_action "admin@woxsen.edu.in" (fun s => s)
              (process_action "admin@woxsen.edu.in" (fun s => s) [samplePending] 1 "A1"
                "HR" "reject" (some "doctor's note pending")).store
              now2 "A1" token2 "approve" note2).store "A1"
          = some (decideRow 1 "admin@woxsen.edu.in" "REJECTED" samplePending) :=
  C7_reject_then_notify "admin@woxsen.edu.in" (fun s => s) [samplePending] 1 "A1" "HR"
    "doctor's note pending" samplePending (by decide) (by decide) (by decide) (by decide)

/-! ### C8 -/

/-- C8: a successful decision transition changes only `status`,
`decided_at` and `decided_by`; every other column of the row — id,
submission data, request fields, document descriptor, student identity,
parent contacts, both token hashes and the expiry — is unchanged. -/
theorem C8_transition_frame (admin : String) (sha256 : String → String)
    (store : Store) (now : Int) (aid token action : String) (note : Option String)
    (app : Application)
    (hget : get_application store aid = some app)
    (hpend : app.status = "PENDING")
    (hexp : ¬ now > fromisoformat app.token_expires_at)
    (htok : sha256 token =
      (if action = "approve" then app.approve_token_hash else app.reject_token_hash)) :
    ∃ app2, get_application
        (process_action admin sha256 store now aid token action note).store aid = some app2
      ∧ app2 = { app with
                  status := if action = "approve" then "APPROVED" else "REJECTED"
                  decided_at := some (isoformat now)
                  decided_by := some admin }
      ∧ app2.application_id = app.application_id
      ∧ app2.submitted_at = app.submitted_at
      ∧ app2.from_date = app.from_date
      ∧ app2.to_date = app.to_date
      ∧ app2.reason = app.reason
      ∧ app2.reason_type = app.reason_type
      ∧ app2.doc_name = app.doc_name
      ∧ app2.doc_sha256 = app.doc_sha256
      ∧ app2.student_email = app.student_email
      ∧ app2.student_name = app.student_name
      ∧ app2.program = app.program
      ∧ app2.semester = app.semester
      ∧ app2.«section» = app.«section»
      ∧ app2.father_name = app.father_name
      ∧ app2.father_mobile = app.father_mobile
      ∧ app2.father_email = app.father_email
      ∧ app2.mother_name = app.mother_name
      ∧ app2.mother_email = app.mother_email
      ∧ app2.mother_mobile = app.mother_mobile
      ∧ app2.approve_token_hash = app.approve_token_hash
      ∧ app2.reject_token_hash = app.reject_token_hash
      ∧ app2.token_expires_at = app.token_expires_at := by
  have hs := process_action_success admin sha256 store now aid token action note app
    hget hpend hexp htok
  refine ⟨decideRow now admin (if action = "approve" then "APPROVED" else "REJECTED") app,
    ?_, rfl, rfl, rfl, rfl, rfl, rfl, rfl, rfl, rfl, rfl, rfl, rfl, rfl, rfl, rfl, rfl,
    rfl, rfl, rfl, rfl, rfl, rfl, rfl⟩
  rw [hs]
  simp [get_application_update_status_self, hget]

/-- Witness for C8 at concrete inputs: approve transition on the sample
row. -/
theorem C8_transition_frame_witness :
    ∃ app2, get_application
        (process_action "admin@woxsen.edu.in" (fun s => s) [samplePending] 50 "A1" "HA"
          "approve" none).store "A1" = some app2
      ∧ app2 = { samplePending with
                  status := if "approve" = "approve" then "APPROVED" else "REJECTED"
                  decided_at := some (isoformat 50)
                  decided_by := some "admin@woxsen.edu.in" }
      ∧ app2.application_id = samplePending.application_id
      ∧ app2.submitted_at = samplePending.submitted_at
      ∧ app2.from_date = samplePending.from_date
      ∧ app2.to_date = samplePending.to_date
      ∧ app2.reason = samplePending.reason
      ∧ app2.reason_type = samplePending.reason_type
      ∧ app2.doc_name = samplePending.doc_name
      ∧ app2.doc_sha256 = samplePending.doc_sha256
      ∧ app2.student_email = samplePending.student_email
      ∧ app2.student_name = samplePending.student_name
      ∧ app2.program = samplePending.program
      ∧ app2.semester = samplePending.semester
      ∧ app2.«section» = samplePending.«section»
      ∧ app2.father_name = samplePending.father_name
      ∧ app2.father_mobile = samplePending.father_mobile
      ∧ app2.father_email = samplePending.father_email
      ∧ app2.mother_name = samplePending.mother_name
      ∧ app2.mother_email = samplePending.mother_email
      ∧ app2.mother_mobile = samplePending.mother_mobile
      ∧ app2.approve_token_hash = samplePending.approve_token_hash
      ∧ app2.reject_token_hash = samplePending.reject_token_hash
      ∧ app2.token_expires_at = samplePending.token_expires_at :=
  C8_transition_frame "admin@woxsen.edu.in" (fun s => s) [samplePending] 50 "A1" "HA"
    "approve" none samplePending (by decide) (by decide) (by decide) (by decide)

/-! ### C10 -/

/-- Successful `insert_application` appends exactly the inserted PENDING
row. -/
theorem insert_application_ok_shape {store : Store} {now_iso : String} {payload : Payload}
    {ah rh exp_iso : String} {s0 : Store}
    (h : insert_application store now_iso payload ah rh exp_iso = .ok s0) :
    s0 = store ++ [insertedRow payload ah rh exp_iso now_iso] := by
  unfold insert_application at h
  by_cases hdup : (get_application store payload.application_id).isSome
  · rw [if_pos hdup] at h
    cases h
  · rw [if_neg hdup] at h
    cases hchk : get_application (store ++ [insertedRow payload ah rh exp_iso now_iso])
        payload.application_id with
    | none =>
      rw [hchk] at h
      cases h
    | some chk =>
      rw [hchk] at h
      by_cases hcond : chk.application_id = payload.application_id
          ∧ chk.status = "PENDING" ∧ chk.submitted_at ≠ ""
      · simp only [if_pos hcond] at h
        cases h
        rfl
      · simp only [if_neg hcond] at h
        cases h

/-- The status written by a decision is never PENDING. -/
theorem new_status_ne_pending (action : String) :
    (if action = "approve" then "APPROVED" else "REJECTED") ≠ "PENDING" := by
  by_cases ha : action = "approve" <;> simp [ha]

/-- C10's invariant: `decided_at`/`decided_by` are NULL exactly while the
row is PENDING, and on a decided row they are set together, `decided_at` to
a serialized processing time and `decided_by` to the configured admin
e-mail. -/
def DecidedInvariant (admin : String) (store : Store) : Prop :=
  ∀ app ∈ store,
    (app.status = "PENDING" ↔ app.decided_at = none ∧ app.decided_by = none)
    ∧ (app.status ≠ "PENDING" →
        ∃ t : Int, app.decided_at = some (isoformat t) ∧ app.decided_by = some admin)

/-- Tables reachable from the empty table by the create/process lifecycle:
`insert_application` (successful create) and `process_action` with
arbitrary ids, tokens, actions, notes and clock readings. -/
inductive Reachable (admin : String) (sha256 : String → String) : Store → Prop where
  | empty : Reachable admin sha256 []
  | insert {store store2 : Store} {now_iso : String} {payload : Payload}
      {ah rh exp_iso : String} :
      Reachable admin sha256 store →
      insert_application store now_iso payload ah rh exp_iso = .ok store2 →
      Reachable admin sha256 store2
  | process {store : Store} (now : Int) (aid token action : String) (note : Option String) :
      Reachable admin sha256 store →
      Reachable admin sha256 (process_action admin sha256 store now aid token action note).store

/-- C10: on every table reachable through create and process, a row's
`decided_at` and `decided_by` are both NULL exactly while it is PENDING,
and once decided they are set together, `decided_at` to a serialized
processing time and `decided_by` to the admin e-mail. -/
theorem C10_decided_iff_not_pending (admin : String) (sha256 : String → String)
    (store : Store) (h : Reachable admin sha256 store) :
    DecidedInvariant admin store := by
  induction h with
  | empty =>
    intro app hmem
    cases hmem
  | insert hre hok ih =>
    have hshape := insert_application_ok_shape hok
    subst hshape
    intro app hmem
    rcases List.mem_append.mp hmem with hin | hin
    · exact ih app hin
    · rcases List.mem_singleton.mp hin with rfl
      refine ⟨⟨fun _ => ⟨rfl, rfl⟩, fun _ => rfl⟩, fun hne => absurd rfl hne⟩
  | process now aid token action note hre ih =>
    rename_i store0
    rcases process_action_store_cases admin sha256 store0 now aid token action note with
      hsame | ⟨app0, hget0, hnterm, hupd⟩
    · rw [hsame]
      exact ih
    · rw [hupd]
      intro app hmem
      unfold update_status at hmem
      rcases List.mem_map.mp hmem with ⟨r, hrmem, rfl⟩
      by_cases hr : (r.application_id == aid)
      · rw [if_pos hr]
        refine ⟨⟨fun hpend => absurd hpend (new_status_ne_pending action), ?_⟩,
          fun _ => ⟨now, rfl, rfl⟩⟩
        intro hde
        exact Option.noConfusion hde.1
      · rw [if_neg hr]
        exact ih r hrmem

/-- Witness for C10: the table obtained by creating the sample application
and approving it. -/
theorem C10_decided_iff_not_pending_witness :
    DecidedInvariant "admin@woxsen.edu.in"
      (process_action "admin@woxsen.edu.in" (fun s => s)
        [insertedRow samplePayload "HA" "HR" "100" "0"] 50 "A1" "HA" "approve"
        none).store :=
  C10_decided_iff_not_pending "admin@woxsen.edu.in" (fun s => s) _
    (Reachable.process 50 "A1" "HA" "approve" none
      (@Reachable.insert "admin@woxsen.edu.in" (fun s => s) []
        [insertedRow samplePayload "HA" "HR" "100" "0"] "0" samplePayload "HA" "HR" "100"
        Reachable.empty rfl))

end OutGate
